import Mathlib

/-!
Verification of the website-monitor application core (monitor module,
database module) against its natural-language specification.

The JavaScript source is shallowly embedded: every HTTP request is
represented by its observable outcome (a received response with a status
code, a made-but-unanswered request, or a setup failure before the request
was made), promise rejection is represented with `Except`, the SQLite
websites table is a list of records, and one monitor cycle is a pure
function of an environment that fixes the outcome of every external call
the cycle makes (gate request, per-site probe requests, store writes,
window availability).
-/

namespace WebsiteMonitor

/-- Site status as stored in the websites table: TEXT column holding
UNKNOWN (the default at insertion), UP or DOWN. -/
inductive Status where
  | UNKNOWN
  | UP
  | DOWN
deriving DecidableEq, Repr

/-- One row of the websites table (database module in README.md, second
revision: id, url, status, last_checked, last_status_change,
last_down_timestamp; the three timestamp columns are nullable). -/
structure Website where
  id : Nat
  url : String
  status : Status
  last_checked : Option Nat := none
  last_status_change : Option Nat := none
  last_down_timestamp : Option Nat := none
deriving DecidableEq, Repr

/-- Observable outcome of a single axios request: a response was received
(with its HTTP status code), the request was made but no response arrived
(axios sets error.request: timeout, DNS failure, connection refused), or
the request could not even be set up (axios sets only error.message). -/
inductive HttpOutcome where
  | response (status : Nat)
  | noResponse
  | setupError (msg : String)
deriving DecidableEq, Repr

/-- The validateStatus option passed by checkWebsite (renderer.js line
471): status >= 200 && status < 400. A received response failing it makes
axios reject with error.response set. -/
def checkWebsiteValidateStatus (status : Nat) : Bool :=
  decide (200 ≤ status) && decide (status < 400)

/-- The default validateStatus of axios, in force when the caller passes
none (as isNetworkAvailable does at renderer.js line 336): status >= 200
&& status < 300. A received response failing it makes axios reject with
error.response set. -/
def axiosDefaultValidateStatus (status : Nat) : Bool :=
  decide (200 ≤ status) && decide (status < 300)

/-- URL normalization in checkWebsite (renderer.js lines 465-467):
prepend http:// when the url starts with neither http:// nor https://. -/
def normalizeUrl (url : String) : String :=
  if !url.startsWith "http://" && !url.startsWith "https://" then
    "http://" ++ url
  else
    url

/-- Return value of checkWebsite: { isUp, errorMsg }. -/
structure CheckResult where
  isUp : Bool
  errorMsg : Option String
deriving DecidableEq, Repr

/-- checkWebsite (renderer.js lines 457-493). The parameter http gives
the outcome of the axios GET issued against the (normalized) check URL.
The try/catch classifies: success under the explicit validateStatus means
UP with no message; a rejected response carries Status <code>; a request
without a response carries the fixed no-response message; anything else a
setup-error message. The catch swallows the error, so the function always
returns a CheckResult and never rejects. -/
def checkWebsite (http : String → HttpOutcome) (website : Website) : CheckResult :=
  let checkUrl := normalizeUrl website.url
  match http checkUrl with
  | .response s =>
      if checkWebsiteValidateStatus s then
        { isUp := true, errorMsg := none }
      else
        { isUp := false, errorMsg := some ("Status " ++ toString s) }
  | .noResponse =>
      { isUp := false, errorMsg := some "No response received (Timeout or network issue)" }
  | .setupError m =>
      { isUp := false, errorMsg := some ("Request setup error: " ++ m) }

/-- isNetworkAvailable (renderer.js lines 332-353). The parameter is the
outcome of the HEAD request to the fixed connectivity-check URL. The call
passes no validateStatus, so axios applies its default (2xx) validation:
a received response outside 200-299 is raised as an error and lands in
the catch, which returns false; a response inside 200-299 resolves and
the function returns true. -/
def isNetworkAvailable (headOutcome : HttpOutcome) : Bool :=
  match headOutcome with
  | .response s => axiosDefaultValidateStatus s
  | .noResponse => false
  | .setupError _ => false

/-- A JavaScript Error as nodemailer and sqlite raise it: an optional
code (EAUTH, ECONNREFUSED, ...) and a message. -/
structure JsError where
  code : Option String
  message : String
deriving DecidableEq, Repr

/-- A nodemailer message as built by the monitor module: from, to,
subject, plain-text body. -/
structure Mail where
  fromAddr : String
  toAddr : String
  subject : String
  text : String
deriving DecidableEq, Repr

/-- Environment of sendNotificationEmail: the outcome of each
db.getSetting lookup (a rejected promise or a value, null when the key is
absent) and the outcome of transporter.sendMail (message id on success,
rejection on failure). -/
structure EmailEnv where
  getSetting : String → Except JsError (Option String)
  sendMail : Mail → Except JsError String

/-- What one call of sendNotificationEmail did: sent a mail (with the
message id logged), returned early because a credential was missing, or
caught an error and logged it. -/
inductive NotifyOutcome where
  | sent (mail : Mail) (messageId : String)
  | skippedMissingCredentials
  | errorLogged (err : JsError)
deriving DecidableEq, Repr

/-- Body of the try block of sendNotificationEmail (renderer.js lines
358-395): look up adminEmail and adminPassword (each await can reject),
return early when either is falsy (null or empty string), otherwise build
the mail addressed from and to the admin email and send it (the await can
reject). -/
def sendNotificationEmailTry (env : EmailEnv) (subject body : String) :
    Except JsError NotifyOutcome :=
  match env.getSetting "adminEmail" with
  | .error e => .error e
  | .ok adminEmail =>
    match env.getSetting "adminPassword" with
    | .error e => .error e
    | .ok adminPassword =>
      if (adminEmail.getD "").isEmpty || (adminPassword.getD "").isEmpty then
        .ok .skippedMissingCredentials
      else
        let mail : Mail :=
          { fromAddr := "\"Website Monitor\" <" ++ adminEmail.getD "" ++ ">",
            toAddr := adminEmail.getD "",
            subject := subject,
            text := body }
        match env.sendMail mail with
        | .ok info => .ok (.sent mail info)
        | .error e => .error e

/-- sendNotificationEmail (renderer.js lines 356-401): the whole body is
wrapped in try/catch and the catch only logs, so every rejection from the
credential lookups or the send is converted into a normal return. -/
def sendNotificationEmail (env : EmailEnv) (subject body : String) :
    Except JsError NotifyOutcome :=
  match sendNotificationEmailTry env subject body with
  | .ok o => .ok o
  | .error e => .ok (.errorLogged e)

/-- Result object returned by sendTestEmail on success. -/
structure TestEmailResult where
  success : Bool
  message : String
deriving DecidableEq, Repr

/-- Error-message cleanup in the catch of sendTestEmail (renderer.js
lines 446-451): EAUTH and connection errors get friendlier text,
everything else keeps its own message. -/
def cleanTestEmailError (err : JsError) : String :=
  if err.code = some "EAUTH" then
    "Authentication failed. Check email/password (use App Password if applicable)."
  else if err.code = some "ECONNREFUSED" ∨ err.code = some "ETIMEDOUT" then
    "Connection failed. Check SMTP host/port and firewall settings."
  else err.message

/-- The mail built by sendTestEmail (renderer.js lines 428-433): sender
mailbox and recipient are both the caller-supplied address. -/
def testMail (testEmail : String) : Mail :=
  { fromAddr := "\"Website Monitor Test\" <" ++ testEmail ++ ">",
    toAddr := testEmail,
    subject := "Website Monitor - Test Email",
    text := "This is a test email from the Website Monitor application.\n\nIf you received this, your email settings appear to be configured correctly." }

/-- sendTestEmail (renderer.js lines 404-454): empty credentials throw a
required-fields error; otherwise the test mail is sent with the supplied
credentials; success returns a result object, while a send failure is
re-thrown as a new error with a cleaned message (the Except.error arm
models the thrown exception, the Except.ok arm the returned value). -/
def sendTestEmail (sendMail : Mail → Except JsError String)
    (testEmail testPassword : String) : Except String TestEmailResult :=
  if testEmail.isEmpty || testPassword.isEmpty then
    .error "Email address and Password are required to send a test email."
  else
    match sendMail (testMail testEmail) with
    | .ok _ =>
        .ok { success := true,
              message := "Test email sent successfully to " ++ testEmail ++ "." }
    | .error err =>
        .error ("Failed to send test email: " ++ cleanTestEmailError err)

/-- db.recordWebsiteDown (README.md database module, lines 510-523):
UPDATE websites SET status DOWN, last_checked, last_status_change and
last_down_timestamp all to now WHERE id matches. -/
def recordWebsiteDown (store : List Website) (id now : Nat) : List Website :=
  store.map fun w =>
    if w.id = id then
      { w with status := .DOWN, last_checked := some now,
               last_status_change := some now, last_down_timestamp := some now }
    else w

/-- db.recordWebsiteUp (README.md database module, lines 526-539):
UPDATE websites SET status UP, last_checked and last_status_change to
now WHERE id matches; last_down_timestamp is not touched. -/
def recordWebsiteUp (store : List Website) (id now : Nat) : List Website :=
  store.map fun w =>
    if w.id = id then
      { w with status := .UP, last_checked := some now,
               last_status_change := some now }
    else w

/-- db.updateWebsiteCheckTime (README.md database module, lines 584-595):
UPDATE websites SET last_checked to now WHERE id matches. -/
def updateWebsiteCheckTime (store : List Website) (id now : Nat) : List Website :=
  store.map fun w =>
    if w.id = id then { w with last_checked := some now } else w

/-- db.addWebsite (README.md database module, lines 551-569): INSERT of
(url, UNKNOWN, now, null) into a table whose url column is UNIQUE. A
duplicate url violates the constraint and the promise rejects with the
duplicate-URL error, leaving the table as it was; otherwise the new row
(with the autoincremented id and null last_checked) is appended. -/
def addWebsite (store : List Website) (nextId now : Nat) (url : String) :
    Except String (List Website) :=
  if store.any (fun w => w.url == url) then
    .error ("URL already exists: " ++ url)
  else
    .ok (store ++ [{ id := nextId, url := url, status := .UNKNOWN,
                     last_checked := none, last_status_change := some now,
                     last_down_timestamp := none }])

/-- db.deleteWebsite (README.md database module, lines 571-581): DELETE
WHERE id matches; when this.changes is 0 the promise rejects with the
not-found error, and the table is unchanged in that case. -/
def deleteWebsite (store : List Website) (id : Nat) :
    Except String (List Website) :=
  let remaining := store.filter fun w => w.id != id
  if remaining.length = store.length then
    .error ("Website with ID " ++ toString id ++ " not found.")
  else
    .ok remaining

/-- JavaScript string-or: errorMsg || fallback, where null and the empty
string are falsy. -/
def jsStrOr (o : Option String) (fallback : String) : String :=
  match o with
  | none => fallback
  | some s => if s.isEmpty then fallback else s

/-- Subject of the DOWN alert mail (renderer.js line 540). -/
def downAlertSubject (url : String) : String :=
  "ALERT: Website Down - " ++ url

/-- Body of the DOWN alert mail (renderer.js line 541). -/
def downAlertBody (url : String) (errorMsg : Option String) (nowIso : String) : String :=
  "The website " ++ url ++ " appears to be DOWN.\nReason: " ++
    jsStrOr errorMsg "Failed check" ++ "\nTimestamp: " ++ nowIso

/-- Subject of the recovery mail (renderer.js line 548). -/
def upResolvedSubject (url : String) : String :=
  "RESOLVED: Website Up - " ++ url

/-- Body of the recovery mail (renderer.js line 549). -/
def upResolvedBody (url nowIso : String) : String :=
  "The website " ++ url ++ " is back UP.\nTimestamp: " ++ nowIso

/-- One store write the cycle can issue for a site. -/
inductive WriteOp where
  | recordDown (id : Nat)
  | recordUp (id : Nat)
  | checkTime (id : Nat)
deriving DecidableEq, Repr

/-- What processing one site did during a cycle: the store writes it
attempted (always exactly one), the subset of those that were persisted
(a failed write rejects and jumps to the per-site catch), the
(subject, body) pairs it handed to sendNotificationEmail, and whether it
set the databaseWasUpdated flag. -/
structure SiteOutcome where
  attempted : List WriteOp
  persisted : List WriteOp
  mails : List (String × String)
  flagSet : Bool
deriving DecidableEq, Repr

/-- The per-site closure of monitorAllWebsites (renderer.js lines
526-562). checkWebsite never rejects, so the first await cannot throw.
On a status change the databaseWasUpdated flag is assigned before the
store write; if the write rejects, control jumps to the per-site catch
and the notification call is skipped, but the flag stays set. On a DOWN
write the alert is dispatched only when the old status was not DOWN; on
an UP write the recovery mail only when the old status was DOWN. With an
unchanged status only the check time is written, and the flag is
assigned after that await, so a rejected check-time write leaves it
unset. sendNotificationEmail never throws, so a dispatch cannot reach
the catch. -/
def processSite (probe : String → HttpOutcome) (writeOk : WriteOp → Bool)
    (nowIso : String) (site : Website) : SiteOutcome :=
  let r := checkWebsite probe site
  let newStatus : Status := if r.isUp then .UP else .DOWN
  let oldStatus := site.status
  if newStatus ≠ oldStatus then
    if newStatus = .DOWN then
      let w := WriteOp.recordDown site.id
      if writeOk w then
        if oldStatus ≠ .DOWN then
          { attempted := [w], persisted := [w],
            mails := [(downAlertSubject site.url,
                       downAlertBody site.url r.errorMsg nowIso)],
            flagSet := true }
        else
          { attempted := [w], persisted := [w], mails := [], flagSet := true }
      else
        { attempted := [w], persisted := [], mails := [], flagSet := true }
    else
      let w := WriteOp.recordUp site.id
      if writeOk w then
        if oldStatus = .DOWN then
          { attempted := [w], persisted := [w],
            mails := [(upResolvedSubject site.url,
                       upResolvedBody site.url nowIso)],
            flagSet := true }
        else
          { attempted := [w], persisted := [w], mails := [], flagSet := true }
      else
        { attempted := [w], persisted := [], mails := [], flagSet := true }
  else
    let w := WriteOp.checkTime site.id
    if writeOk w then
      { attempted := [w], persisted := [w], mails := [], flagSet := true }
    else
      { attempted := [w], persisted := [], mails := [], flagSet := false }

/-- Environment of one invocation of monitorAllWebsites: the guard value
at entry, the outcome of the gate HEAD request, whether db.getAllWebsites
resolves, the table it returns, the outcome of every probe GET by URL,
which store writes succeed, whether the main window exists and is not
destroyed, and the current time (epoch milliseconds and ISO string). -/
structure CycleEnv where
  paused : Bool
  gateOutcome : HttpOutcome
  fetchOk : Bool
  store : List Website
  probe : String → HttpOutcome
  writeOk : WriteOp → Bool
  windowAvailable : Bool
  nowMs : Nat
  nowIso : String

/-- Observable effects of one invocation of monitorAllWebsites. -/
structure CycleResult where
  probed : List String
  attemptedWrites : List WriteOp
  persistedWrites : List WriteOp
  mails : List (String × String)
  uiSignalCount : Nat
  finalStore : List Website
  pausedAfter : Bool
deriving Repr

/-- Apply one persisted store write with the database functions. -/
def applyWrite (now : Nat) (store : List Website) : WriteOp → List Website
  | .recordDown id => recordWebsiteDown store id now
  | .recordUp id => recordWebsiteUp store id now
  | .checkTime id => updateWebsiteCheckTime store id now

/-- monitorAllWebsites (renderer.js lines 496-585). If the guard is set
the invocation is a no-op. Otherwise the guard is set, the gate runs
first, and on gate failure the guard is cleared and the function returns
before fetching, probing, writing, notifying or signalling. If the fetch
rejects, the catch logs and the finally runs with the flag still false.
Otherwise every site is processed; after all settle, the finally emits
the websites-updated signal exactly once when the flag is set and the
window is available, and clears the guard unconditionally. An empty site
list just falls through to the finally with the flag false. -/
def monitorAllWebsites (env : CycleEnv) : CycleResult :=
  if env.paused then
    { probed := [], attemptedWrites := [], persistedWrites := [], mails := [],
      uiSignalCount := 0, finalStore := env.store, pausedAfter := true }
  else if !(isNetworkAvailable env.gateOutcome) then
    { probed := [], attemptedWrites := [], persistedWrites := [], mails := [],
      uiSignalCount := 0, finalStore := env.store, pausedAfter := false }
  else if !env.fetchOk then
    { probed := [], attemptedWrites := [], persistedWrites := [], mails := [],
      uiSignalCount := 0, finalStore := env.store, pausedAfter := false }
  else
    let outcomes := env.store.map (processSite env.probe env.writeOk env.nowIso)
    let dbUpdated := outcomes.any fun o => o.flagSet
    { probed := env.store.map fun w => w.url,
      attemptedWrites := (outcomes.map fun o => o.attempted).flatten,
      persistedWrites := (outcomes.map fun o => o.persisted).flatten,
      mails := (outcomes.map fun o => o.mails).flatten,
      uiSignalCount := if dbUpdated && env.windowAvailable then 1 else 0,
      finalStore := ((outcomes.map fun o => o.persisted).flatten).foldl
        (applyWrite env.nowMs) env.store,
      pausedAfter := false }

/-- A site with status UP and a scheme-less URL, used as concrete input. -/
def siteUpW : Website := { id := 1, url := "example.com", status := .UP }

/-- A probe for which no request ever gets a response. -/
def probeNoResp : String → HttpOutcome := fun _ => .noResponse

/-- Concrete cycle environment: guard clear, gate answered 204, fetch ok,
one UP site whose probe gets no response, all writes succeed, window
available. -/
def envUpSiteDownProbe : CycleEnv :=
  { paused := false, gateOutcome := .response 204, fetchOk := true,
    store := [siteUpW], probe := probeNoResp, writeOk := fun _ => true,
    windowAvailable := true, nowMs := 1000,
    nowIso := "2026-01-01T00:00:00.000Z" }

/-- The same environment with the gate request unanswered. -/
def envGateDown : CycleEnv := { envUpSiteDownProbe with gateOutcome := .noResponse }

/-- The same environment with every store write failing. -/
def envWritesFail : CycleEnv := { envUpSiteDownProbe with writeOk := fun _ => false }

/-- Credential environment in which both admin settings are absent. -/
def envNoCreds : EmailEnv :=
  { getSetting := fun _ => .ok none, sendMail := fun _ => .ok "id-1" }

/-- A send function that always resolves with a message id. -/
def sendAlwaysOk : Mail → Except JsError String := fun _ => .ok "msg-id-1"

/-- A send function that always rejects with an authentication error. -/
def sendEauth : Mail → Except JsError String :=
  fun _ => .error { code := some "EAUTH", message := "Invalid login" }

/-- A one-site store used for the duplicate-add and missing-delete witness. -/
def storeOneSite : List Website := [{ id := 1, url := "example.com", status := .UP }]

/-- A site used in the last_down_timestamp witness. -/
def siteLddW : Website := { id := 7, url := "x.example.com", status := .UP }

/-- The record siteLddW becomes after recordWebsiteDown at time 42. -/
def siteLddWAfter : Website :=
  { id := 7, url := "x.example.com", status := .DOWN, last_checked := some 42,
    last_status_change := some 42, last_down_timestamp := some 42 }

/-- Every branch of processSite attempts exactly one store write. -/
theorem processSite_attempted_singleton (probe : String → HttpOutcome)
    (writeOk : WriteOp → Bool) (nowIso : String) (site : Website) :
    ∃ w, (processSite probe writeOk nowIso site).attempted = [w] := by
  unfold processSite
  dsimp only
  repeat' split
  all_goals exact ⟨_, rfl⟩

/-- Claim C1 counterexample: a running cycle with one UP site whose
probe reports down is a DOWN-entry transition, yet when the
recordWebsiteDown write rejects the per-site catch is entered before the
dispatch line and the cycle hands sendNotificationEmail zero mails, so
it is not the case that exactly one notification is dispatched on every
DOWN-entry transition. -/
theorem notification_skipped_on_failed_write_counterexample :
    siteUpW.status ≠ Status.DOWN ∧
    (checkWebsite envWritesFail.probe siteUpW).isUp = false ∧
    (monitorAllWebsites envWritesFail).mails = [] :=
  ⟨by decide, rfl, rfl⟩

/-- Claim C1 amended: in a running cycle (guard clear, gate up, fetch
resolved) the cycle dispatches exactly the concatenation of the per-site
mails, and a site hands sendNotificationEmail exactly one mail on a
transition into DOWN (stored status not DOWN, probe down) whose DOWN
store write succeeds and exactly one on a transition out of DOWN (stored
status DOWN, probe up) whose UP store write succeeds; when the
transition store write rejects, the per-site handler is entered before
the dispatch and zero mails are handed over; and none are handed over
when the probed status equals the stored status or on an UNKNOWN-to-UP
transition. -/
theorem monitor_cycle_notifications_per_transition (env : CycleEnv) (site : Website)
    (hp : env.paused = false)
    (hnet : isNetworkAvailable env.gateOutcome = true)
    (hf : env.fetchOk = true)
    (hmem : site ∈ env.store) :
    ((monitorAllWebsites env).mails =
      (env.store.map fun s => (processSite env.probe env.writeOk env.nowIso s).mails).flatten)
    ∧ ((site.status ≠ .DOWN ∧ (checkWebsite env.probe site).isUp = false ∧
          env.writeOk (WriteOp.recordDown site.id) = true) →
        (processSite env.probe env.writeOk env.nowIso site).mails.length = 1)
    ∧ ((site.status = .DOWN ∧ (checkWebsite env.probe site).isUp = true ∧
          env.writeOk (WriteOp.recordUp site.id) = true) →
        (processSite env.probe env.writeOk env.nowIso site).mails.length = 1)
    ∧ ((site.status ≠ .DOWN ∧ (checkWebsite env.probe site).isUp = false ∧
          env.writeOk (WriteOp.recordDown site.id) = false) →
        (processSite env.probe env.writeOk env.nowIso site).mails = [])
    ∧ ((site.status = .DOWN ∧ (checkWebsite env.probe site).isUp = true ∧
          env.writeOk (WriteOp.recordUp site.id) = false) →
        (processSite env.probe env.writeOk env.nowIso site).mails = [])
    ∧ (((site.status = .UP ∧ (checkWebsite env.probe site).isUp = true)
        ∨ (site.status = .DOWN ∧ (checkWebsite env.probe site).isUp = false)
        ∨ (site.status = .UNKNOWN ∧ (checkWebsite env.probe site).isUp = true)) →
        (processSite env.probe env.writeOk env.nowIso site).mails = []) := by
  refine ⟨?_, ?_, ?_, ?_, ?_, ?_⟩
  · simp [monitorAllWebsites, hp, hnet, hf, List.map_map]
    all_goals rfl
  · rintro ⟨hst, hup, hwk⟩
    simp [processSite, hup, hst, Ne.symm hst, hwk]
  · rintro ⟨hst, hup, hwk⟩
    simp [processSite, hup, hst, hwk]
  · rintro ⟨hst, hup, hwk⟩
    simp [processSite, hup, hst, Ne.symm hst, hwk]
  · rintro ⟨hst, hup, hwk⟩
    simp [processSite, hup, hst, hwk]
  · rintro (⟨hst, hup⟩ | ⟨hst, hup⟩ | ⟨hst, hup⟩)
    · cases hwc : env.writeOk (WriteOp.checkTime site.id) <;>
        simp [processSite, hup, hst, hwc]
    · cases hwc : env.writeOk (WriteOp.checkTime site.id) <;>
        simp [processSite, hup, hst, hwc]
    · cases hwk : env.writeOk (WriteOp.recordUp site.id) <;>
        simp [processSite, hup, hst, hwk]

/-- Concrete instance of the amended claim C1: the UP site probed down,
with its DOWN write succeeding, dispatches exactly one mail. -/
theorem monitor_cycle_notifications_per_transition_witness :
    (processSite envUpSiteDownProbe.probe envUpSiteDownProbe.writeOk
      envUpSiteDownProbe.nowIso siteUpW).mails.length = 1 :=
  (monitor_cycle_notifications_per_transition envUpSiteDownProbe siteUpW rfl rfl rfl
    (List.mem_cons_self siteUpW [])).2.1 ⟨by decide, rfl, rfl⟩

/-- Claim C2: when the gate reports the network unavailable, the cycle
probes no site, attempts no store write, dispatches no notification,
emits no UI signal, leaves the store unchanged and clears the in-flight
guard before returning. -/
theorem monitor_cycle_gate_down_is_noop (env : CycleEnv)
    (hp : env.paused = false)
    (hnet : isNetworkAvailable env.gateOutcome = false) :
    monitorAllWebsites env =
      { probed := [], attemptedWrites := [], persistedWrites := [], mails := [],
        uiSignalCount := 0, finalStore := env.store, pausedAfter := false } := by
  simp [monitorAllWebsites, hp, hnet]

/-- Concrete instance of claim C2: with the gate request unanswered the
cycle is a no-op with the guard cleared. -/
theorem monitor_cycle_gate_down_is_noop_witness :
    monitorAllWebsites envGateDown =
      { probed := [], attemptedWrites := [], persistedWrites := [], mails := [],
        uiSignalCount := 0, finalStore := envGateDown.store, pausedAfter := false } :=
  monitor_cycle_gate_down_is_noop envGateDown rfl rfl

/-- Claim C3 counterexample: in a cycle whose only site has a status
change but whose store write fails, no write is persisted and yet the
websites-updated signal is emitted, because the databaseWasUpdated flag
is assigned before the status-change write. -/
theorem ui_signal_without_persisted_write_counterexample :
    (monitorAllWebsites envWritesFail).uiSignalCount = 1 ∧
      (monitorAllWebsites envWritesFail).persistedWrites = [] := by
  constructor <;> rfl

/-- Claim C3 amended: the websites-updated signal is emitted at most once
per cycle, only in a cycle that attempted at least one store write, and
never in a cycle whose fetched site list is empty. -/
theorem ui_signal_at_most_once_per_cycle (env : CycleEnv) :
    (monitorAllWebsites env).uiSignalCount ≤ 1
    ∧ ((monitorAllWebsites env).uiSignalCount = 1 →
        (monitorAllWebsites env).attemptedWrites ≠ [])
    ∧ (env.store = [] → (monitorAllWebsites env).uiSignalCount = 0) := by
  refine ⟨?_, ?_, ?_⟩
  · unfold monitorAllWebsites
    dsimp only
    repeat' split
    all_goals simp
  · unfold monitorAllWebsites
    dsimp only
    split
    · intro h; simp at h
    split
    · intro h; simp at h
    split
    · intro h; simp at h
    split
    next hcond =>
      intro _ hnil
      have hdb : (List.map (processSite env.probe env.writeOk env.nowIso) env.store).any
          (fun o => o.flagSet) = true := ((Bool.and_eq_true _ _).mp hcond).1
      rcases List.any_eq_true.mp hdb with ⟨o, homem, hoflag⟩
      rw [List.flatten_eq_nil_iff] at hnil
      have hx := hnil _ (List.mem_map.mpr ⟨_, homem, rfl⟩)
      rcases List.mem_map.mp homem with ⟨s, hsmem, rfl⟩
      rcases processSite_attempted_singleton env.probe env.writeOk env.nowIso s with ⟨w, hwEq⟩
      rw [hwEq] at hx
      exact List.cons_ne_nil w [] hx
    next =>
      intro h; simp at h
  · intro hstore
    unfold monitorAllWebsites
    dsimp only
    repeat' split
    all_goals simp_all

/-- Concrete instance of the amended claim C3: the failing-write cycle
that emitted the signal did attempt a write. -/
theorem ui_signal_at_most_once_per_cycle_witness :
    (monitorAllWebsites envWritesFail).attemptedWrites ≠ [] :=
  (ui_signal_at_most_once_per_cycle envWritesFail).2.1 rfl

/-- Claim C4: recordWebsiteUp and updateWebsiteCheckTime leave every
last_down_timestamp in the store unchanged, recordWebsiteDown sets the
target record's last_down_timestamp to now, and a cycle attempts the
DOWN write for a site exactly when the probe reports down and the stored
status is not DOWN; hence the field is written exactly on transitions
into DOWN from a non-DOWN state and is never cleared by an UP transition. -/
theorem last_down_timestamp_only_on_down_transition (store : List Website)
    (id now : Nat) (probe : String → HttpOutcome) (writeOk : WriteOp → Bool)
    (nowIso : String) (site : Website) :
    ((recordWebsiteUp store id now).map (fun w => w.last_down_timestamp) =
       store.map (fun w => w.last_down_timestamp))
    ∧ ((updateWebsiteCheckTime store id now).map (fun w => w.last_down_timestamp) =
       store.map (fun w => w.last_down_timestamp))
    ∧ (∀ w ∈ recordWebsiteDown store id now, w.id = id →
         w.last_down_timestamp = some now)
    ∧ (WriteOp.recordDown site.id ∈ (processSite probe writeOk nowIso site).attempted ↔
         ((checkWebsite probe site).isUp = false ∧ site.status ≠ .DOWN)) := by
  refine ⟨?_, ?_, ?_, ?_⟩
  · unfold recordWebsiteUp
    rw [List.map_map]
    refine List.map_congr_left ?_
    intro a _
    by_cases h : a.id = id <;> simp [h]
  · unfold updateWebsiteCheckTime
    rw [List.map_map]
    refine List.map_congr_left ?_
    intro a _
    by_cases h : a.id = id <;> simp [h]
  · intro w hwmem hwid
    rcases List.mem_map.mp hwmem with ⟨v, hv, rfl⟩
    by_cases h : v.id = id
    · simp [h]
    · rw [if_neg h] at hwid ⊢
      exact absurd hwid h
  · cases hup : (checkWebsite probe site).isUp
    · by_cases hd : site.status = Status.DOWN
      · cases hwc : writeOk (WriteOp.checkTime site.id) <;>
          simp [processSite, hup, hd, hwc]
      · cases hwk : writeOk (WriteOp.recordDown site.id) <;>
          simp [processSite, hup, hd, Ne.symm hd, hwk]
    · by_cases hu : site.status = Status.UP
      · cases hwc : writeOk (WriteOp.checkTime site.id) <;>
          simp [processSite, hup, hu, hwc]
      · cases hwk : writeOk (WriteOp.recordUp site.id) <;>
        by_cases hd : site.status = Status.DOWN <;>
          simp [processSite, hup, hu, hd, Ne.symm hu, hwk]

/-- Concrete instance of claim C4: recordWebsiteDown on a one-site store
sets the target record's last_down_timestamp to the write time. -/
theorem last_down_timestamp_only_on_down_transition_witness :
    siteLddWAfter.last_down_timestamp = some 42 :=
  (last_down_timestamp_only_on_down_transition [siteLddW] 7 42 probeNoResp
    (fun _ => true) "T" siteLddW).2.2.1 siteLddWAfter (by decide) rfl

/-- Claim C5 counterexample: when the request gets no response, the
reason produced by checkWebsite is the longer string of this revision,
not exactly the string the claim states. -/
theorem checkWebsite_no_response_reason_counterexample :
    (checkWebsite (fun _ => HttpOutcome.noResponse) siteUpW).errorMsg =
      some "No response received (Timeout or network issue)" ∧
    (some "No response received (Timeout or network issue)" : Option String) ≠
      some "No response received" :=
  ⟨rfl, by decide⟩

/-- Claim C5 amended: checkWebsite prepends http:// when the URL has
neither scheme prefix, classifies a response with status in [200, 400)
as UP, a response with status at least 400 as DOWN with reason
Status <code>, an unanswered request as DOWN with reason exactly
"No response received (Timeout or network issue)", and a setup failure
as DOWN with a setup-error message. -/
theorem checkWebsite_classification (probe : String → HttpOutcome) (site : Website) :
    ((site.url.startsWith "http://" = false ∧ site.url.startsWith "https://" = false) →
      normalizeUrl site.url = "http://" ++ site.url)
    ∧ (∀ s, probe (normalizeUrl site.url) = .response s → 200 ≤ s → s < 400 →
        checkWebsite probe site = { isUp := true, errorMsg := none })
    ∧ (∀ s, probe (normalizeUrl site.url) = .response s → 400 ≤ s →
        checkWebsite probe site =
          { isUp := false, errorMsg := some ("Status " ++ toString s) })
    ∧ (probe (normalizeUrl site.url) = .noResponse →
        checkWebsite probe site =
          { isUp := false,
            errorMsg := some "No response received (Timeout or network issue)" })
    ∧ (∀ m, probe (normalizeUrl site.url) = .setupError m →
        checkWebsite probe site =
          { isUp := false, errorMsg := some ("Request setup error: " ++ m) }) := by
  refine ⟨?_, ?_, ?_, ?_, ?_⟩
  · rintro ⟨h1, h2⟩
    simp [normalizeUrl, h1, h2]
  · intro s hs hl hu
    simp [checkWebsite, hs, checkWebsiteValidateStatus, hl, hu]
  · intro s hs hu
    have h4 : ¬ s < 400 := by omega
    simp [checkWebsite, hs, checkWebsiteValidateStatus, h4]
  · intro hs
    simp [checkWebsite, hs]
  · intro m hs
    simp [checkWebsite, hs]

/-- Concrete instance of the amended claim C5: a scheme-less URL is
normalized and a 503 response is classified DOWN with reason Status 503. -/
theorem checkWebsite_classification_witness :
    checkWebsite (fun _ => HttpOutcome.response 503) siteUpW =
      { isUp := false, errorMsg := some ("Status " ++ toString 503) } :=
  (checkWebsite_classification (fun _ => HttpOutcome.response 503) siteUpW).2.2.1
    503 rfl (by decide)

/-- Claim C6 counterexample: a HEAD request that received a response
with status 500 makes isNetworkAvailable return false, because axios
raises a response outside its default 2xx validation as an error; so a
received response does not always yield true. -/
theorem isNetworkAvailable_response_status_counterexample :
    isNetworkAvailable (HttpOutcome.response 500) = false := rfl

/-- Claim C6 amended: isNetworkAvailable returns true exactly when the
HEAD request got a response whose status passes the default axios
validation (200 to 299); every transport-level failure, setup failure,
and received response outside that range yields false. -/
theorem isNetworkAvailable_iff_response_2xx (o : HttpOutcome) :
    isNetworkAvailable o = true ↔ ∃ s, o = .response s ∧ 200 ≤ s ∧ s < 300 := by
  cases o with
  | response s => simp [isNetworkAvailable, axiosDefaultValidateStatus, and_assoc]
  | noResponse => simp [isNetworkAvailable]
  | setupError m => simp [isNetworkAvailable]

/-- Concrete instance of the amended claim C6: a 204 response yields true. -/
theorem isNetworkAvailable_iff_response_2xx_witness :
    isNetworkAvailable (HttpOutcome.response 204) = true :=
  (isNetworkAvailable_iff_response_2xx (HttpOutcome.response 204)).mpr
    ⟨204, rfl, by decide, by decide⟩

/-- Claim C7 counterexample: with non-empty credentials and a send that
rejects with an authentication error, sendTestEmail throws (models as
Except.error) instead of returning a success-false result object. -/
theorem sendTestEmail_failure_throws_counterexample :
    sendTestEmail sendEauth "admin@example.com" "pw" =
      .error "Failed to send test email: Authentication failed. Check email/password (use App Password if applicable)." := by
  rfl

/-- Claim C7 amended: with non-empty caller-supplied credentials,
sendTestEmail sends a message whose sender mailbox and recipient are
both that address; a successful send returns the success result object,
and a failed send is surfaced by re-throwing an error with a cleaned
message, not swallowed and not returned as a result object. -/
theorem sendTestEmail_addresses_and_outcome (sendMail : Mail → Except JsError String)
    (e p : String) (he : e.isEmpty = false) (hp : p.isEmpty = false) :
    (testMail e).toAddr = e
    ∧ (testMail e).fromAddr = "\"Website Monitor Test\" <" ++ e ++ ">"
    ∧ (∀ info, sendMail (testMail e) = .ok info →
        sendTestEmail sendMail e p =
          .ok { success := true,
                message := "Test email sent successfully to " ++ e ++ "." })
    ∧ (∀ err, sendMail (testMail e) = .error err →
        sendTestEmail sendMail e p =
          .error ("Failed to send test email: " ++ cleanTestEmailError err)) := by
  refine ⟨rfl, rfl, ?_, ?_⟩
  · intro info hsend
    simp [sendTestEmail, he, hp, hsend]
  · intro err hsend
    simp [sendTestEmail, he, hp, hsend]

/-- Concrete instance of the amended claim C7: a resolving send yields
the success result object. -/
theorem sendTestEmail_addresses_and_outcome_witness :
    sendTestEmail sendAlwaysOk "admin@example.com" "pw" =
      .ok { success := true,
            message := "Test email sent successfully to " ++ "admin@example.com" ++ "." } :=
  (sendTestEmail_addresses_and_outcome sendAlwaysOk "admin@example.com" "pw"
    rfl rfl).2.2.1 "msg-id-1" rfl

/-- Claim C8: adding a URL already present in the store rejects with the
duplicate-URL error and produces no new store, and deleting an id absent
from the store rejects with the not-found error while the DELETE removed
nothing, so the store is unchanged. -/
theorem store_rejects_duplicate_add_and_missing_delete (store : List Website)
    (nextId now : Nat) (url : String) (id : Nat)
    (hdup : store.any (fun w => w.url == url) = true)
    (hmiss : ∀ w ∈ store, w.id ≠ id) :
    addWebsite store nextId now url = .error ("URL already exists: " ++ url)
    ∧ deleteWebsite store id =
        .error ("Website with ID " ++ toString id ++ " not found.")
    ∧ store.filter (fun w => w.id != id) = store := by
  have hfilter : store.filter (fun w => w.id != id) = store :=
    List.filter_eq_self.mpr (fun a ha => by simpa using hmiss a ha)
  refine ⟨?_, ?_, hfilter⟩
  · simp [addWebsite, hdup]
  · simp [deleteWebsite, hfilter]

/-- Concrete instance of claim C8: re-adding the stored URL rejects with
the duplicate-URL error. -/
theorem store_rejects_duplicate_add_and_missing_delete_witness :
    addWebsite storeOneSite 2 1000 "example.com" =
      .error ("URL already exists: " ++ "example.com") :=
  (store_rejects_duplicate_add_and_missing_delete storeOneSite 2 1000 "example.com" 99
    (by decide) (by decide)).1

/-- Claim C9: sendNotificationEmail never propagates an exception: every
invocation returns normally (Except.ok), and when either stored
credential is missing or empty it returns the skipped outcome without
attempting a send; rejected credential lookups and rejected sends are
caught and logged. -/
theorem sendNotificationEmail_never_throws (env : EmailEnv) (subject body : String) :
    (∃ o, sendNotificationEmail env subject body = .ok o)
    ∧ (∀ e p, env.getSetting "adminEmail" = .ok e →
        env.getSetting "adminPassword" = .ok p →
        ((e.getD "").isEmpty || (p.getD "").isEmpty) = true →
        sendNotificationEmail env subject body = .ok .skippedMissingCredentials) := by
  constructor
  · cases h : sendNotificationEmailTry env subject body with
    | ok o => exact ⟨o, by simp [sendNotificationEmail, h]⟩
    | error e => exact ⟨.errorLogged e, by simp [sendNotificationEmail, h]⟩
  · intro e p he hpw hempty
    simp [sendNotificationEmail, sendNotificationEmailTry, he, hpw, hempty]

/-- Concrete instance of claim C9: with both settings absent the call
returns the skipped outcome. -/
theorem sendNotificationEmail_never_throws_witness :
    sendNotificationEmail envNoCreds "s" "b" = .ok .skippedMissingCredentials :=
  (sendNotificationEmail_never_throws envNoCreds "s" "b").2 none none rfl rfl rfl

/-- Claim C10: checkWebsite is total over probe failures: for every probe
outcome it returns a CheckResult, and whenever that result is not UP the
errorMsg field carries some message; a probe failure is absorbed inside
checkWebsite and cannot raise an exception into the per-site handler of
the cycle. -/
theorem checkWebsite_total_over_failures (probe : String → HttpOutcome)
    (site : Website) :
    ((checkWebsite probe site).isUp = true ∧ (checkWebsite probe site).errorMsg = none)
    ∨ ((checkWebsite probe site).isUp = false ∧
        ∃ m, (checkWebsite probe site).errorMsg = some m) := by
  cases hpo : probe (normalizeUrl site.url) with
  | response s =>
      by_cases h : checkWebsiteValidateStatus s = true
      · exact Or.inl (by simp [checkWebsite, hpo, h])
      · exact Or.inr (by simp [checkWebsite, hpo, h])
  | noResponse => exact Or.inr (by simp [checkWebsite, hpo])
  | setupError m => exact Or.inr (by simp [checkWebsite, hpo])

end WebsiteMonitor
